import Mathlib

/-!
Shallow embedding of the greeter module (`src/greeter.c`) and of the
`Single<T>` singleton helper (`mock/single.hh`) of the GTest4C repository,
with theorems settling the spec claims about them.

Modelling choices:
* A C string (`const char *`) is a `List Char` (one element per byte/char);
  an optional / possibly-NULL string is an `Option (List Char)`.
* `struct greeter_t` has a heap-owned `greeting` and a fixed
  `char buffer[100]`; the buffer is modelled as `Option (List Char)` —
  `none` while no greet has been performed (malloc leaves it unset).
* `snprintf(buf, 100, "%s, %s!", greeting, name ?: "World")` writes at most
  99 characters plus a terminating NUL, i.e. the buffer receives the first
  `100 - 1` characters of the full formatted string.
* `loggerWriteLog` is an external collaborator returning an `Int` status;
  the status each call returns is passed in explicitly (a list of statuses,
  consumed one per call) so that independence from it can be stated.
* `greeterDestroy(greeter_t **self)` asserts its argument pointer is
  non-NULL; the pointer-to-handle argument is an `Option (Option Greeter)`
  and the assertion failure (process abort) is a distinguished outcome.
-/

namespace GTest4C

/-- The fixed capacity of `greeter_t.buffer` (`char buffer[100]`). -/
def bufferSize : Nat := 100

/-- `struct greeter_t`: an owned greeting text and the output buffer. -/
structure Greeter where
  greeting : List Char
  buffer : Option (List Char)
deriving DecidableEq, Repr

/-- The full (untruncated) text `"<greeting>, <name>!"` with the name
defaulting to `"World"` when absent (`name ?: "World"`). -/
def formatGreeting (greeting : List Char) (name : Option (List Char)) : List Char :=
  greeting ++ (", ".toList) ++ name.getD ("World".toList) ++ ("!".toList)

/-- `snprintf` with buffer size `bufferSize`: stores at most
`bufferSize - 1` characters and NUL-terminates. -/
def snprintfTrunc (s : List Char) : List Char :=
  s.take (bufferSize - 1)

/-- `greeterCreate`: NULL greeting yields NULL, otherwise a fresh greeter
holding a copy of the greeting; the buffer is not yet set.  The body
performs no `loggerWriteLog` call. -/
def greeterCreate (greeting : Option (List Char)) : Option Greeter :=
  match greeting with
  | none => none
  | some g => some { greeting := g, buffer := none }

/-- The logger calls made by the body of `greeterCreate`: none (its body
contains no `loggerWriteLog` call). Each logged call is recorded as the
message together with the status the logger returned for it. -/
def greeterCreateLog (greeting : Option (List Char)) :
    Option Greeter × List (List Char × Int) :=
  (greeterCreate greeting, [])

/-- `greeterGreet`: NULL self yields NULL; otherwise format into the
buffer (capacity-bounded), forward the buffer to `loggerWriteLog`
(whose returned `status` is ignored), and return the buffer.
Result: (new state, returned string, logger calls made). -/
def greeterGreet (self : Option Greeter) (name : Option (List Char))
    (status : Int) :
    Option Greeter × Option (List Char) × List (List Char × Int) :=
  match self with
  | none => (none, none, [])
  | some g =>
      let out := snprintfTrunc (formatGreeting g.greeting name)
      (some { g with buffer := some out }, some out, [(out, status)])

/-- A sequence of `greeterGreet` calls on one handle.  `statuses` supplies
the status the logger returns for each call it actually receives (a call
on a NULL handle performs no logger call, so consumes no status); an
exhausted list defaults to status 0.  Result: (final state, the value each
call returned in order, the logger calls in order). -/
def runGreets (self : Option Greeter) (calls : List (Option (List Char)))
    (statuses : List Int) :
    Option Greeter × List (Option (List Char)) × List (List Char × Int) :=
  match calls with
  | [] => (self, [], [])
  | n :: rest =>
      let step := greeterGreet self n (statuses.headD 0)
      let remaining := if self.isSome then statuses.tail else statuses
      let next := runGreets step.1 rest remaining
      (next.1, step.2.1 :: next.2.1, step.2.2 ++ next.2.2)

/-- `greeterDestroy` on the pointed-to handle: a NULL handle is a no-op;
a live handle is freed and the handle is set to NULL. -/
def greeterDestroy (self : Option Greeter) : Option Greeter :=
  match self with
  | none => none
  | some _ => none

/-- Outcome of `greeterDestroy(greeter_t **self)` including the
`assert(self)` at its head. -/
inductive DestroyResult where
  | aborted
  | ok (self : Option Greeter)
deriving DecidableEq, Repr

/-- `greeterDestroy` with its argument pointer: `assert(self)` aborts the
process when the reference itself is NULL; otherwise the pointed-to handle
is updated as by `greeterDestroy`. -/
def greeterDestroyRef (ref : Option (Option Greeter)) : DestroyResult :=
  match ref with
  | none => DestroyResult.aborted
  | some s => DestroyResult.ok (greeterDestroy s)

/-!
`Single<T>` (`mock/single.hh`): a process-wide single-instance helper.
Its state is the static `instance` pointer, modelled by a `Bool`
(`true` iff an instance is currently live).  The constructor and
`GetInstance` throw `std::runtime_error`, modelled by `Except String`.
-/

/-- `Single<T>::Single()`: throws if an instance is already live,
otherwise installs this object as the instance. -/
def singleConstruct (live : Bool) : Except String Bool :=
  if live then Except.error "Single instance usage only!!"
  else Except.ok true

/-- `Single<T>::~Single()`: resets the stored instance pointer. -/
def singleDestruct (_live : Bool) : Bool :=
  false

/-- `Single<T>::GetInstance()`: throws if no instance is live, otherwise
returns a reference to the live instance. -/
def singleGetInstance (live : Bool) : Except String Unit :=
  if live then Except.ok ()
  else Except.error "Uninitialized singleton instance use!"

/-! ## Basic lemmas -/

/-- `greeterDestroy` sends every handle (live or absent) to the absent
handle. -/
theorem greeterDestroy_eq_none (s : Option Greeter) : greeterDestroy s = none := by
  cases s <;> rfl

/-- A run of greet calls on a live handle: the values returned, the
messages logged, and the final state.  The greeting is preserved, and the
buffer ends up holding the output of the most recent call (or is untouched
when no call was made). -/
theorem runGreets_spec (g : Greeter) (calls : List (Option (List Char)))
    (statuses : List Int) :
    (runGreets (some g) calls statuses).2.1
        = calls.map (fun n => some (snprintfTrunc (formatGreeting g.greeting n)))
    ∧ ((runGreets (some g) calls statuses).2.2).map Prod.fst
        = calls.map (fun n => snprintfTrunc (formatGreeting g.greeting n))
    ∧ ∃ g2, (runGreets (some g) calls statuses).1 = some g2
        ∧ g2.greeting = g.greeting
        ∧ g2.buffer = (calls.getLast?).elim g.buffer
            (fun n => some (snprintfTrunc (formatGreeting g.greeting n))) := by
  induction calls generalizing g statuses with
  | nil => exact ⟨rfl, rfl, g, rfl, rfl, rfl⟩
  | cons n rest ih =>
      obtain ⟨h1, h2, g2, hst, hgr, hbuf⟩ :=
        ih { g with buffer := some (snprintfTrunc (formatGreeting g.greeting n)) }
          statuses.tail
      refine ⟨?_, ?_, g2, ?_, hgr, ?_⟩
      · simpa [runGreets, greeterGreet] using h1
      · simpa [runGreets, greeterGreet] using h2
      · simpa [runGreets, greeterGreet] using hst
      · cases rest with
        | nil => simpa using hbuf
        | cons m rest2 =>
            rw [List.getLast?_cons_cons]
            rw [List.getLast?_eq_getLast (m :: rest2) (by simp)] at hbuf ⊢
            simpa using hbuf

/-! ## Claim theorems -/

/-- C4: `greeterCreate` returns an absent result iff the greeting is
absent; every non-absent greeting (the empty string included) yields a
handle whose stored greeting is a copy of the argument, and
`Create("")` followed by `Destroy` succeeds without fault, leaving the
handle absent. -/
theorem greeterCreate_absent_iff :
    (∀ greeting : Option (List Char),
      greeterCreate greeting = none ↔ greeting = none) ∧
    (∀ g : List Char, ∃ gr : Greeter,
      greeterCreate (some g) = some gr ∧ gr.greeting = g) ∧
    greeterDestroyRef (some (greeterCreate (some []))) = DestroyResult.ok none := by
  refine ⟨?_, ?_, rfl⟩
  · intro greeting
    cases greeting <;> simp [greeterCreate]
  · intro g
    exact ⟨_, rfl, rfl⟩

/-- C5: `greeterGreet` returns an absent result iff the handle is absent;
on a live handle it returns a non-absent, non-empty string for every name
argument (absent and empty names included), whatever status the logger
returns. -/
theorem greeterGreet_absent_iff :
    (∀ (self : Option Greeter) (name : Option (List Char)) (st : Int),
      (greeterGreet self name st).2.1 = none ↔ self = none) ∧
    (∀ (g : Greeter) (name : Option (List Char)) (st : Int),
      ∃ out : List Char,
        (greeterGreet (some g) name st).2.1 = some out ∧ out ≠ []) := by
  constructor
  · intro self name st
    cases self <;> simp [greeterGreet]
  · intro g name st
    refine ⟨_, rfl, ?_⟩
    intro h
    have hlen := congrArg List.length h
    simp [snprintfTrunc, formatGreeting, bufferSize] at hlen

/-- C6: `greeterDestroy` is idempotent on a valid reference: one call on a
reference to a live handle leaves the handle absent, and any number of
further calls on the same reference are no-ops that keep it absent and do
not fault (the reference being valid, the assertion never fires). -/
theorem greeterDestroy_idempotent :
    (∀ (s : Option Greeter) (k : Nat), greeterDestroy^[k + 1] s = none) ∧
    (∀ s : Option Greeter, greeterDestroyRef (some s) = DestroyResult.ok none) := by
  constructor
  · intro s k
    rw [Function.iterate_succ_apply, greeterDestroy_eq_none]
    exact Function.iterate_fixed (greeterDestroy_eq_none none) k
  · intro s
    simp [greeterDestroyRef, greeterDestroy_eq_none]

/-- C9: `greeterDestroy` aborts (assertion failure) iff the reference
argument itself is absent; for every valid reference the assertion never
fires and the call completes normally. -/
theorem greeterDestroyRef_aborts_iff :
    ∀ ref : Option (Option Greeter),
      greeterDestroyRef ref = DestroyResult.aborted ↔ ref = none := by
  intro ref
  cases ref <;> simp [greeterDestroyRef]

/-- C1 (counterexample): the claim fails as stated — for a greeting of
100 'a' characters and an absent name the formatted string exceeds the
buffer capacity, so `greeterGreet` returns its truncation, not the full
`"<greeting>, World!"` text. -/
theorem greet_exact_text_counterexample :
    ¬ ((greeterGreet (greeterCreate (some (List.replicate 100 'a'))) none 0).2.1
        = some (formatGreeting (List.replicate 100 'a') none)) := by
  intro h
  have hlen := congrArg (fun o => (Option.map List.length o).getD 0) h
  simp [greeterGreet, greeterCreate, snprintfTrunc, formatGreeting,
    bufferSize] at hlen

/-- C1 (amended): for every non-absent greeting `g` and optional name `n`
whose full formatted text `g ++ ", " ++ (n or "World") ++ "!"` fits the
buffer (length at most `bufferSize - 1`),
`greeterGreet (greeterCreate g) n` returns exactly that text, the name
defaulting to the literal "World" when absent. -/
theorem greet_create_exact_text (g : List Char) (name : Option (List Char))
    (st : Int)
    (h : (formatGreeting g name).length ≤ bufferSize - 1) :
    (greeterGreet (greeterCreate (some g)) name st).2.1
      = some (formatGreeting g name) := by
  simp [greeterCreate, greeterGreet, snprintfTrunc, List.take_of_length_le h]

/-- C1 (witness): the amended theorem applied at greeting "Hello" and
name "Vietnam". -/
theorem greet_create_exact_text_witness :
    (formatGreeting "Hello".toList (some "Vietnam".toList)).length
        ≤ bufferSize - 1
    ∧ (greeterGreet (greeterCreate (some "Hello".toList))
          (some "Vietnam".toList) 0).2.1
        = some (formatGreeting "Hello".toList (some "Vietnam".toList)) :=
  ⟨by decide, greet_create_exact_text "Hello".toList (some "Vietnam".toList) 0
      (by decide)⟩

/-- C2: on a live handle, every greet call in a sequence forwards its
formatted string to the logger exactly once — the logged messages are
exactly the returned strings, one per call, in call order — and
`greeterCreate` performs no logger call. -/
theorem greet_logs_exactly_once :
    (∀ (g : Greeter) (calls : List (Option (List Char))) (statuses : List Int),
      ((runGreets (some g) calls statuses).2.2).map Prod.fst
          = calls.map (fun n => snprintfTrunc (formatGreeting g.greeting n))
      ∧ (runGreets (some g) calls statuses).2.1
          = calls.map (fun n => some (snprintfTrunc (formatGreeting g.greeting n))))
    ∧ (∀ greeting : Option (List Char), (greeterCreateLog greeting).2 = []) := by
  constructor
  · intro g calls statuses
    obtain ⟨h1, h2, -⟩ := runGreets_spec g calls statuses
    exact ⟨h2, h1⟩
  · intro greeting
    rfl

/-- C3: formatting is bounded by the buffer capacity of `bufferSize = 100`
bytes: the returned string is always the first `bufferSize - 1 = 99`
characters of the full formatted text (hence of length at most 99, the
last byte being reserved for the NUL terminator), so a text that would
exceed the capacity is silently truncated, for every greeting and name. -/
theorem greet_bounded_by_buffer :
    ∀ (g : Greeter) (name : Option (List Char)) (st : Int),
      ∃ out : List Char,
        (greeterGreet (some g) name st).2.1 = some out
        ∧ out.length ≤ bufferSize - 1
        ∧ out = (formatGreeting g.greeting name).take (bufferSize - 1) := by
  intro g name st
  refine ⟨_, rfl, ?_, rfl⟩
  exact List.length_take_le _ _

/-- C7: the statuses the logger returns never influence `greeterGreet`:
two runs of the same greet-call sequence on the same handle that differ
only in the logger's returned statuses produce the same final state, the
same value from every call, and the same logged messages. -/
theorem greet_ignores_logger_status :
    ∀ (self : Option Greeter) (calls : List (Option (List Char)))
      (st1 st2 : List Int),
      (runGreets self calls st1).1 = (runGreets self calls st2).1
      ∧ (runGreets self calls st1).2.1 = (runGreets self calls st2).2.1
      ∧ ((runGreets self calls st1).2.2).map Prod.fst
          = ((runGreets self calls st2).2.2).map Prod.fst := by
  intro self calls
  induction calls generalizing self with
  | nil => exact fun st1 st2 => ⟨rfl, rfl, rfl⟩
  | cons n rest ih =>
      intro st1 st2
      cases self with
      | none =>
          obtain ⟨h1, h2, h3⟩ := ih none st1 st2
          refine ⟨?_, ?_, ?_⟩ <;> simpa [runGreets, greeterGreet] using
            (by first
              | exact h1
              | exact h2
              | exact h3)
      | some g =>
          obtain ⟨h1, h2, h3⟩ := ih _ st1.tail st2.tail
          refine ⟨?_, ?_, ?_⟩ <;> simp [runGreets, greeterGreet]
          · exact h1
          · exact h2
          · exact h3

/-- C8: the internal buffer is unset on a fresh greeter and, across any
sequence of greet calls on a live handle, ends up holding exactly the
output of the most recent successful greet (unchanged when no call was
made); each successful greet returns precisely the new buffer contents
(a view into the buffer), which the next greet call overwrites. -/
theorem buffer_holds_most_recent :
    (∀ g : List Char,
      greeterCreate (some g) = some { greeting := g, buffer := none })
    ∧ (∀ (g : Greeter) (name : Option (List Char)) (st : Int),
        ∃ (g2 : Greeter) (out : List Char),
          greeterGreet (some g) name st = (some g2, some out, [(out, st)])
          ∧ g2.buffer = some out)
    ∧ (∀ (g : Greeter) (calls : List (Option (List Char)))
        (statuses : List Int),
        ∃ g2, (runGreets (some g) calls statuses).1 = some g2
          ∧ g2.buffer = (calls.getLast?).elim g.buffer
              (fun n => some (snprintfTrunc (formatGreeting g.greeting n)))) := by
  refine ⟨fun g => rfl, ?_, ?_⟩
  · intro g name st
    exact ⟨_, _, rfl, rfl⟩
  · intro g calls statuses
    obtain ⟨-, -, g2, hst, -, hbuf⟩ := runGreets_spec g calls statuses
    exact ⟨g2, hst, hbuf⟩

/-- C10: `Single<T>::GetInstance` throws iff no instance is live;
constructing an instance throws iff another is live; and after the live
instance is destructed (which resets the stored pointer), constructing a
new instance succeeds. -/
theorem single_instance_lifecycle :
    (∀ live : Bool,
      (∃ e, singleGetInstance live = Except.error e) ↔ live = false) ∧
    (∀ live : Bool,
      (∃ e, singleConstruct live = Except.error e) ↔ live = true) ∧
    (∀ live : Bool, singleConstruct (singleDestruct live) = Except.ok true) := by
  refine ⟨?_, ?_, ?_⟩ <;>
    intro live <;>
    cases live <;>
    simp [singleGetInstance, singleConstruct, singleDestruct]

end GTest4C
